import Mathlib

set_option maxRecDepth 100000

/-!
Verification development for the tdx-gcp-rtmr repository.

The repository has two programs:
  - `main.go`: a TDX quote inspector. It decodes a quote blob (protobuf
    QuoteV4, ABI raw quote, or manual raw parsing), extracts the TD Report
    measurement registers, and performs an offline ECDSA-P256 signature
    structure check.
  - a shell script (src/unnamed/part_000) that replays the measured-boot
    extend chain over kernel, initrd and command line to predict RTMR[1].

This file gives a shallow embedding of both programs over `List Nat`
byte buffers (each byte a Nat below 256 where it matters), with external
library primitives (protobuf parsing, ABI encoding, the ECDSA verify
routine) taken as explicit function parameters, and the hash functions
(SHA-384 for the replay chain, SHA-256 for the signed-payload hash)
implemented concretely from FIPS 180-4.
-/

namespace TdxRtmr

/-! ## Byte and word utilities -/

/-- Reduce a natural number to a 64-bit machine word. -/
def w64 (n : Nat) : Nat := n % 18446744073709551616

/-- Reduce a natural number to a 32-bit machine word. -/
def w32 (n : Nat) : Nat := n % 4294967296

/-- Rotate a 64-bit word right by r bits. -/
def rotr64 (r x : Nat) : Nat := w64 ((x >>> r) ||| (x <<< (64 - r)))

/-- Rotate a 32-bit word right by r bits. -/
def rotr32 (r x : Nat) : Nat := w32 ((x >>> r) ||| (x <<< (32 - r)))

/-- Bitwise complement of a 64-bit word. -/
def not64 (x : Nat) : Nat := 18446744073709551615 ^^^ x

/-- Bitwise complement of a 32-bit word. -/
def not32 (x : Nat) : Nat := 4294967295 ^^^ x

/-- Interpret a byte list as a big-endian unsigned integer. This models
both the SHA word loads and the semantics of the Go call
`new(big.Int).SetBytes(b)`. -/
def beBytesToNat (bs : List Nat) : Nat := bs.foldl (fun acc b => acc * 256 + b) 0

/-- Big-endian encoding of a natural number into a fixed number of bytes. -/
def natToBytesBE (n : Nat) : Nat → List Nat
  | 0 => []
  | k + 1 => natToBytesBE (n / 256) k ++ [n % 256]

/-- Split a list into chunks of n elements (fuel-based recursion). -/
def chunksAux (n : Nat) : Nat → List Nat → List (List Nat)
  | 0, _ => []
  | _, [] => []
  | fuel + 1, l => l.take n :: chunksAux n fuel (l.drop n)

/-- Split a list into chunks of n elements. -/
def chunks (n : Nat) (l : List Nat) : List (List Nat) := chunksAux n l.length l

/-! ## SHA-512 / SHA-384 (FIPS 180-4), over 64-bit words as masked Nat -/

/-- Round constants for SHA-512 and SHA-384. -/
def K512 : List Nat :=
  [4794697086780616226, 8158064640168781261, 13096744586834688815, 16840607885511220156,
   4131703408338449720, 6480981068601479193, 10538285296894168987, 12329834152419229976,
   15566598209576043074, 1334009975649890238, 2608012711638119052, 6128411473006802146,
   8268148722764581231, 9286055187155687089, 11230858885718282805, 13951009754708518548,
   16472876342353939154, 17275323862435702243, 1135362057144423861, 2597628984639134821,
   3308224258029322869, 5365058923640841347, 6679025012923562964, 8573033837759648693,
   10970295158949994411, 12119686244451234320, 12683024718118986047, 13788192230050041572,
   14330467153632333762, 15395433587784984357, 489312712824947311, 1452737877330783856,
   2861767655752347644, 3322285676063803686, 5560940570517711597, 5996557281743188959,
   7280758554555802590, 8532644243296465576, 9350256976987008742, 10552545826968843579,
   11727347734174303076, 12113106623233404929, 14000437183269869457, 14369950271660146224,
   15101387698204529176, 15463397548674623760, 17586052441742319658, 1182934255886127544,
   1847814050463011016, 2177327727835720531, 2830643537854262169, 3796741975233480872,
   4115178125766777443, 5681478168544905931, 6601373596472566643, 7507060721942968483,
   8399075790359081724, 8693463985226723168, 9568029438360202098, 10144078919501101548,
   10430055236837252648, 11840083180663258601, 13761210420658862357, 14299343276471374635,
   14566680578165727644, 15097957966210449927, 16922976911328602910, 17689382322260857208,
   500013540394364858, 748580250866718886, 1242879168328830382, 1977374033974150939,
   2944078676154940804, 3659926193048069267, 4368137639120453308, 4836135668995329356,
   5532061633213252278, 6448918945643986474, 6902733635092675308, 7801388544844847127]

/-- Initial hash state of SHA-384. -/
def H384init : List Nat :=
  [14680500436340154072, 7105036623409894663, 10473403895298186519, 1526699215303891257,
   7436329637833083697, 10282925794625328401, 15784041429090275239, 5167115440072839076]

/-- Small sigma 0 for SHA-512. -/
def sSig0_512 (x : Nat) : Nat := rotr64 1 x ^^^ rotr64 8 x ^^^ (x >>> 7)

/-- Small sigma 1 for SHA-512. -/
def sSig1_512 (x : Nat) : Nat := rotr64 19 x ^^^ rotr64 61 x ^^^ (x >>> 6)

/-- Big Sigma 0 for SHA-512. -/
def bSig0_512 (x : Nat) : Nat := rotr64 28 x ^^^ rotr64 34 x ^^^ rotr64 39 x

/-- Big Sigma 1 for SHA-512. -/
def bSig1_512 (x : Nat) : Nat := rotr64 14 x ^^^ rotr64 18 x ^^^ rotr64 41 x

/-- Choice function over 64-bit words. -/
def ch64 (e f g : Nat) : Nat := (e &&& f) ^^^ (not64 e &&& g)

/-- Majority function over 64-bit words. -/
def maj64 (a b c : Nat) : Nat := (a &&& b) ^^^ (a &&& c) ^^^ (b &&& c)

/-- One message-schedule extension step for SHA-512; the schedule is kept
reversed (most recent word first). -/
def scheduleStep512 (rw : List Nat) : List Nat :=
  w64 (sSig1_512 (rw.getD 1 0) + rw.getD 6 0 + sSig0_512 (rw.getD 14 0) + rw.getD 15 0) :: rw

/-- Iterate the SHA-512 schedule extension n times. -/
def extendSchedule512 : Nat → List Nat → List Nat
  | 0, rw => rw
  | n + 1, rw => extendSchedule512 n (scheduleStep512 rw)

/-- Full 80-word SHA-512 message schedule from the 16 block words. -/
def messageSchedule512 (w16 : List Nat) : List Nat :=
  (extendSchedule512 64 w16.reverse).reverse

/-- Working state of a SHA-2 compression round. -/
structure Sha2State where
  (a b c d e f g h : Nat)

/-- One SHA-512 compression round with round constant k and schedule word wt. -/
def round512 (st : Sha2State) (kw : Nat × Nat) : Sha2State :=
  let t1 := w64 (st.h + bSig1_512 st.e + ch64 st.e st.f st.g + kw.1 + kw.2)
  let t2 := w64 (bSig0_512 st.a + maj64 st.a st.b st.c)
  ⟨w64 (t1 + t2), st.a, st.b, st.c, w64 (st.d + t1), st.e, st.f, st.g⟩

/-- Compress one 128-byte block into the running 8-word hash state. -/
def processBlock512 (hs : List Nat) (block : List Nat) : List Nat :=
  let ws := messageSchedule512 ((chunks 8 block).map beBytesToNat)
  let st0 : Sha2State :=
    ⟨hs.getD 0 0, hs.getD 1 0, hs.getD 2 0, hs.getD 3 0,
     hs.getD 4 0, hs.getD 5 0, hs.getD 6 0, hs.getD 7 0⟩
  let stf := (K512.zip ws).foldl round512 st0
  [w64 (hs.getD 0 0 + stf.a), w64 (hs.getD 1 0 + stf.b), w64 (hs.getD 2 0 + stf.c),
   w64 (hs.getD 3 0 + stf.d), w64 (hs.getD 4 0 + stf.e), w64 (hs.getD 5 0 + stf.f),
   w64 (hs.getD 6 0 + stf.g), w64 (hs.getD 7 0 + stf.h)]

/-- Merkle-Damgaard padding for SHA-384 and SHA-512: a marker byte of value 128, zeros, and
a 16-byte big-endian bit length, to a multiple of 128 bytes. -/
def padSHA512 (msg : List Nat) : List Nat :=
  let L := msg.length
  msg ++ [128] ++ List.replicate ((128 - (L + 17) % 128) % 128) 0 ++ natToBytesBE (8 * L) 16

/-- SHA-384 of a byte sequence: the first 48 bytes of the final state,
models the Python call hashlib.sha384(data).digest() used by the replay
script. -/
def sha384 (msg : List Nat) : List Nat :=
  let hFinal := (chunks 128 (padSHA512 msg)).foldl processBlock512 H384init
  (hFinal.take 6).flatMap (fun wd => natToBytesBE wd 8)

/-! ## SHA-256 (FIPS 180-4), over 32-bit words as masked Nat -/

/-- Round constants for SHA-256. -/
def K256 : List Nat :=
  [1116352408, 1899447441, 3049323471, 3921009573, 961987163, 1508970993, 2453635748, 2870763221,
   3624381080, 310598401, 607225278, 1426881987, 1925078388, 2162078206, 2614888103, 3248222580,
   3835390401, 4022224774, 264347078, 604807628, 770255983, 1249150122, 1555081692, 1996064986,
   2554220882, 2821834349, 2952996808, 3210313671, 3336571891, 3584528711, 113926993, 338241895,
   666307205, 773529912, 1294757372, 1396182291, 1695183700, 1986661051, 2177026350, 2456956037,
   2730485921, 2820302411, 3259730800, 3345764771, 3516065817, 3600352804, 4094571909, 275423344,
   430227734, 506948616, 659060556, 883997877, 958139571, 1322822218, 1537002063, 1747873779,
   1955562222, 2024104815, 2227730452, 2361852424, 2428436474, 2756734187, 3204031479, 3329325298]

/-- Initial hash state of SHA-256. -/
def H256init : List Nat :=
  [1779033703, 3144134277, 1013904242, 2773480762, 1359893119, 2600822924, 528734635, 1541459225]

/-- Small sigma 0 for SHA-256. -/
def sSig0_256 (x : Nat) : Nat := rotr32 7 x ^^^ rotr32 18 x ^^^ (x >>> 3)

/-- Small sigma 1 for SHA-256. -/
def sSig1_256 (x : Nat) : Nat := rotr32 17 x ^^^ rotr32 19 x ^^^ (x >>> 10)

/-- Big Sigma 0 for SHA-256. -/
def bSig0_256 (x : Nat) : Nat := rotr32 2 x ^^^ rotr32 13 x ^^^ rotr32 22 x

/-- Big Sigma 1 for SHA-256. -/
def bSig1_256 (x : Nat) : Nat := rotr32 6 x ^^^ rotr32 11 x ^^^ rotr32 25 x

/-- Choice function over 32-bit words. -/
def ch32 (e f g : Nat) : Nat := (e &&& f) ^^^ (not32 e &&& g)

/-- Majority function over 32-bit words. -/
def maj32 (a b c : Nat) : Nat := (a &&& b) ^^^ (a &&& c) ^^^ (b &&& c)

/-- One message-schedule extension step for SHA-256 (schedule reversed). -/
def scheduleStep256 (rw : List Nat) : List Nat :=
  w32 (sSig1_256 (rw.getD 1 0) + rw.getD 6 0 + sSig0_256 (rw.getD 14 0) + rw.getD 15 0) :: rw

/-- Iterate the SHA-256 schedule extension n times. -/
def extendSchedule256 : Nat → List Nat → List Nat
  | 0, rw => rw
  | n + 1, rw => extendSchedule256 n (scheduleStep256 rw)

/-- Full 64-word SHA-256 message schedule from the 16 block words. -/
def messageSchedule256 (w16 : List Nat) : List Nat :=
  (extendSchedule256 48 w16.reverse).reverse

/-- One SHA-256 compression round. -/
def round256 (st : Sha2State) (kw : Nat × Nat) : Sha2State :=
  let t1 := w32 (st.h + bSig1_256 st.e + ch32 st.e st.f st.g + kw.1 + kw.2)
  let t2 := w32 (bSig0_256 st.a + maj32 st.a st.b st.c)
  ⟨w32 (t1 + t2), st.a, st.b, st.c, w32 (st.d + t1), st.e, st.f, st.g⟩

/-- Compress one 64-byte block into the running 8-word hash state. -/
def processBlock256 (hs : List Nat) (block : List Nat) : List Nat :=
  let ws := messageSchedule256 ((chunks 4 block).map beBytesToNat)
  let st0 : Sha2State :=
    ⟨hs.getD 0 0, hs.getD 1 0, hs.getD 2 0, hs.getD 3 0,
     hs.getD 4 0, hs.getD 5 0, hs.getD 6 0, hs.getD 7 0⟩
  let stf := (K256.zip ws).foldl round256 st0
  [w32 (hs.getD 0 0 + stf.a), w32 (hs.getD 1 0 + stf.b), w32 (hs.getD 2 0 + stf.c),
   w32 (hs.getD 3 0 + stf.d), w32 (hs.getD 4 0 + stf.e), w32 (hs.getD 5 0 + stf.f),
   w32 (hs.getD 6 0 + stf.g), w32 (hs.getD 7 0 + stf.h)]

/-- Padding for SHA-256: a marker byte of value 128, zeros, and an 8-byte big-endian bit
length, to a multiple of 64 bytes. -/
def padSHA256 (msg : List Nat) : List Nat :=
  let L := msg.length
  msg ++ [128] ++ List.replicate ((64 - (L + 9) % 64) % 64) 0 ++ natToBytesBE (8 * L) 8

/-- SHA-256 of a byte sequence, models the Go call sha256.Sum256(payload). -/
def sha256 (msg : List Nat) : List Nat :=
  let hFinal := (chunks 64 (padSHA256 msg)).foldl processBlock256 H256init
  hFinal.flatMap (fun wd => natToBytesBE wd 4)

/-! ## P-256 curve membership

Models the Go call elliptic.P256().IsOnCurve(x, y): the coordinates must lie
in [0, p) and satisfy the short Weierstrass equation of P-256,
y^2 = x^3 - 3x + b (mod p). -/

/-- Field prime of the NIST P-256 curve. -/
def p256P : Nat := 115792089210356248762697446949407573530086143415290314195533631308867097853951

/-- Coefficient b of the NIST P-256 curve equation. -/
def p256B : Nat := 41058363725152142129326129780047268409114441015993725554835256314039467401291

/-- Membership test of a coordinate pair on the P-256 curve, the model of
elliptic.P256().IsOnCurve. -/
def isOnCurveP256 (x y : Nat) : Bool :=
  decide (x < p256P) && decide (y < p256P) &&
    ((y * y) % p256P == (x * x * x + (p256P - 3) * x + p256B) % p256P)

/-! ## Data model of main.go

The protobuf messages of github.com/google/go-tdx-guest are modelled with the
fields the program reads: message-typed fields are Option (protobuf message
pointers may be nil), byte-string fields are List Nat. -/

/-- Model of the tdx.QuoteV4 Header protobuf message (the fields read by
validateQuoteStructure). -/
structure QuoteHeader where
  version : Nat := 0
  attestationKeyType : Nat := 0
  teeType : Nat := 0
  qeSvn : List Nat := []
  pceSvn : List Nat := []
deriving DecidableEq

/-- Model of the tdx.TDQuoteBody protobuf message (the fields read by
extractFromQuoteV4). -/
structure TDQuoteBody where
  rtmrs : List (List Nat) := []
  mrTd : List Nat := []
  mrConfigId : List Nat := []
  mrOwner : List Nat := []
  mrOwnerConfig : List Nat := []
deriving DecidableEq

/-- Model of the tdx.Ecdsa256BitQuoteV4AuthData signed-data message (the
fields read by validateQuoteStructure). -/
structure SignedData where
  signature : List Nat := []
  ecdsaAttestationKey : List Nat := []
deriving DecidableEq

/-- Model of the tdx.QuoteV4 protobuf message. -/
structure QuoteV4 where
  header : Option QuoteHeader := none
  tdQuoteBody : Option TDQuoteBody := none
  signedData : Option SignedData := none
deriving DecidableEq

/-- The Go TDReport struct of main.go, lines 23 to 47: 23 fixed-width byte
array fields. Go zero-initialises a new TDReport, so every field defaults to
zero bytes of its declared width. The declared widths sum to 1048 bytes. -/
structure TDReport where
  reportType : List Nat := List.replicate 4 0
  reserved1 : List Nat := List.replicate 12 0
  cpuSvn : List Nat := List.replicate 16 0
  teeTcbInfoHash : List Nat := List.replicate 48 0
  teeInfoHash : List Nat := List.replicate 48 0
  reportData : List Nat := List.replicate 64 0
  reserved2 : List Nat := List.replicate 32 0
  macStruct : List Nat := List.replicate 256 0
  teeTcbSvn : List Nat := List.replicate 16 0
  mrSeam : List Nat := List.replicate 48 0
  mrSignerSeam : List Nat := List.replicate 48 0
  seamAttributes : List Nat := List.replicate 8 0
  tdAttributes : List Nat := List.replicate 8 0
  xfam : List Nat := List.replicate 8 0
  mrTd : List Nat := List.replicate 48 0
  mrConfigId : List Nat := List.replicate 48 0
  mrOwner : List Nat := List.replicate 48 0
  mrOwnerConfig : List Nat := List.replicate 48 0
  rtmr0 : List Nat := List.replicate 48 0
  rtmr1 : List Nat := List.replicate 48 0
  rtmr2 : List Nat := List.replicate 48 0
  rtmr3 : List Nat := List.replicate 48 0
  servTdHash : List Nat := List.replicate 48 0
deriving DecidableEq

/-- Byte offsets and sizes of the TDReport struct fields (all fields are byte
arrays, alignment 1, so the Go layout has no padding). -/
def tdReportFieldLayout : List (Nat × Nat) :=
  [(0, 4), (4, 12), (16, 16), (32, 48), (80, 48), (128, 64), (192, 32), (224, 256),
   (480, 16), (496, 48), (544, 48), (592, 8), (600, 8), (608, 8), (616, 48), (664, 48),
   (712, 48), (760, 48), (808, 48), (856, 48), (904, 48), (952, 48), (1000, 48)]

/-- Total size of the Go TDReport struct in bytes. -/
def tdReportStructSize : Nat := 1048

/-- Struct offset of the MrTd field. -/
def mrTdOffset : Nat := 616

/-- Struct offset of the MrConfigId field. -/
def mrConfigIdOffset : Nat := 664

/-- Struct offset of the MrOwner field. -/
def mrOwnerOffset : Nat := 712

/-- Struct offset of the MrOwnerConfig field. -/
def mrOwnerConfigOffset : Nat := 760

/-- Struct offset of the Rtmr0 field. -/
def rtmr0Offset : Nat := 808

/-- Struct offset of the Rtmr1 field. -/
def rtmr1Offset : Nat := 856

/-- Struct offset of the Rtmr2 field. -/
def rtmr2Offset : Nat := 904

/-- Struct offset of the Rtmr3 field. -/
def rtmr3Offset : Nat := 952

/-! ## Raw-mode TD Report extraction (main.go lines 148 to 173) -/

/-- Result of extractTDReportFromRawQuote. The Go function returns a
(pointer, error) pair; the ok constructor carries the whole quote buffer,
because the returned pointer is the unsafe cast
(*TDReport)(unsafe.Pointer(&tdReportBytes[0])) and tdReportBytes shares the
backing array of quoteData starting at index 48, so field dereferences index
quoteData, not a copy. -/
inductive RawExtract where
  | quoteTooShort (n : Nat)
  | invalidTDReportSize (n : Nat)
  | ok (base : List Nat)
deriving DecidableEq

/-- Shallow embedding of extractTDReportFromRawQuote: require at least 632
bytes, slice quoteData[48:632], check that the slice is 584 bytes, then cast
the slice pointer to *TDReport. -/
def extractTDReportFromRawQuote (quoteData : List Nat) : RawExtract :=
  if quoteData.length < 632 then RawExtract.quoteTooShort quoteData.length
  else
    let tdReportBytes := (quoteData.drop 48).take 584
    if tdReportBytes.length ≠ 584 then RawExtract.invalidTDReportSize tdReportBytes.length
    else RawExtract.ok quoteData

/-- Dereference of one TDReport struct field through the unsafe pointer cast:
the struct is placed at quoteData index 48, so the field at struct offset off
with the given size reads quoteData bytes [48 + off, 48 + off + size). The
none result marks a read that would touch memory outside the quote buffer
(in Go this is an out-of-bounds read of unspecified memory). -/
def castFieldRead (quoteData : List Nat) (off size : Nat) : Option (List Nat) :=
  if 48 + off + size ≤ quoteData.length then some ((quoteData.drop (48 + off)).take size)
  else none

/-! ## Register rendering (main.go printRTMRValues, lines 175 to 212) -/

/-- Lowercase hexadecimal digit for a value below 16. -/
def hexDigitChar (n : Nat) : Char := if n < 10 then Char.ofNat (48 + n) else Char.ofNat (87 + n)

/-- Two lowercase hexadecimal digits of one byte. -/
def byteToHexChars (b : Nat) : List Char := [hexDigitChar (b / 16), hexDigitChar (b % 16)]

/-- Lowercase hexadecimal encoding of a byte sequence: the model of the Go
format verb %x applied to a byte slice. -/
def hexLower (bs : List Nat) : String := String.mk (bs.flatMap byteToHexChars)

/-- The marker text printed for an all-zero register. -/
def uninitializedMarker : String := "<all zeros - uninitialized>"

/-- Shallow embedding of the per-register branch of printRTMRValues: scan the
register bytes for a nonzero byte; print the marker when all are zero and the
hex encoding otherwise. -/
def renderRegister (rtmr : List Nat) : String :=
  if rtmr.all (fun b => b == 0) then uninitializedMarker else hexLower rtmr

/-! ## Structured-path TD Report construction (main.go lines 92 to 120) -/

/-- Semantics of the Go builtin copy(dst, src): the first min(len dst, len src)
bytes of dst become those of src; the rest of dst is unchanged. -/
def goCopy (dst src : List Nat) : List Nat :=
  src.take (min dst.length src.length) ++ dst.drop (min dst.length src.length)

/-- TDReport construction of extractFromQuoteV4: start from a zero TDReport,
copy the first four rtmr list entries when at least four are present, then
copy the four mr measurement fields. -/
def tdReportFromBody (tdQuoteBody : TDQuoteBody) : TDReport :=
  let tdReport : TDReport := {}
  let rtmrs := tdQuoteBody.rtmrs
  let tdReport :=
    if 4 ≤ rtmrs.length then
      { tdReport with
          rtmr0 := goCopy tdReport.rtmr0 (rtmrs.getD 0 [])
        , rtmr1 := goCopy tdReport.rtmr1 (rtmrs.getD 1 [])
        , rtmr2 := goCopy tdReport.rtmr2 (rtmrs.getD 2 [])
        , rtmr3 := goCopy tdReport.rtmr3 (rtmrs.getD 3 []) }
    else tdReport
  { tdReport with
      mrTd := goCopy tdReport.mrTd tdQuoteBody.mrTd
    , mrConfigId := goCopy tdReport.mrConfigId tdQuoteBody.mrConfigId
    , mrOwner := goCopy tdReport.mrOwner tdQuoteBody.mrOwner
    , mrOwnerConfig := goCopy tdReport.mrOwnerConfig tdQuoteBody.mrOwnerConfig }

/-! ## Signature validation (main.go lines 265 to 363)

External library routines are explicit parameters: headerToAbiBytes and
tdQuoteBodyToAbiBytes model abi.HeaderToAbiBytes and
abi.TdQuoteBodyToAbiBytes (Option models the (bytes, error) pair), and
ecdsaVerify models ecdsa.Verify over the P-256 key (x, y), the payload hash,
and the signature integers (r, s). -/

/-- Outcome of validateECDSASignature, one constructor per early return of
the Go function plus the final boolean verdict. -/
inductive SigCheckResult where
  | invalidSignatureLength (n : Nat)
  | invalidPublicKeyLength (n : Nat)
  | publicKeyNotOnCurve
  | payloadReconstructionFailed
  | verified (ok : Bool)
deriving DecidableEq

/-- Shallow embedding of createSignedPayload: nil header or body gives nil;
otherwise encode both through the ABI encoders and concatenate header bytes
with TD quote body bytes; an encoder error gives nil. -/
def createSignedPayload (headerToAbiBytes : QuoteHeader → Option (List Nat))
    (tdQuoteBodyToAbiBytes : TDQuoteBody → Option (List Nat))
    (quote : QuoteV4) : Option (List Nat) :=
  match quote.header, quote.tdQuoteBody with
  | some header, some tdQuoteBody =>
    match headerToAbiBytes header with
    | none => none
    | some headerBytes =>
      match tdQuoteBodyToAbiBytes tdQuoteBody with
      | none => none
      | some tdQuoteBodyBytes => some (headerBytes ++ tdQuoteBodyBytes)
  | _, _ => none

/-- Shallow embedding of validateECDSASignature: check the signature length,
split r and s as big-endian integers, check the public key length, split x
and y, reject a key off the P-256 curve, reconstruct the signed payload,
hash it with SHA-256, and run the ECDSA verification. -/
def validateECDSASignature (headerToAbiBytes : QuoteHeader → Option (List Nat))
    (tdQuoteBodyToAbiBytes : TDQuoteBody → Option (List Nat))
    (ecdsaVerify : Nat → Nat → List Nat → Nat → Nat → Bool)
    (quote : QuoteV4) (signature publicKey : List Nat) : SigCheckResult :=
  if signature.length ≠ 64 then SigCheckResult.invalidSignatureLength signature.length
  else
    let r := beBytesToNat (signature.take 32)
    let s := beBytesToNat (signature.drop 32)
    if publicKey.length ≠ 64 then SigCheckResult.invalidPublicKeyLength publicKey.length
    else
      let x := beBytesToNat (publicKey.take 32)
      let y := beBytesToNat (publicKey.drop 32)
      if !isOnCurveP256 x y then SigCheckResult.publicKeyNotOnCurve
      else
        match createSignedPayload headerToAbiBytes tdQuoteBodyToAbiBytes quote with
        | none => SigCheckResult.payloadReconstructionFailed
        | some signedPayload =>
          SigCheckResult.verified (ecdsaVerify x y (sha256 signedPayload) r s)

/-- Shallow embedding of validateQuoteStructure (main.go lines 214 to 263):
with no header the function returns before looking at the signed data; the
signature check runs exactly when the signed data is present and both the
signature and the public key are 64 bytes. The none result means the
signature check was not attempted. -/
def validateQuoteStructure (headerToAbiBytes : QuoteHeader → Option (List Nat))
    (tdQuoteBodyToAbiBytes : TDQuoteBody → Option (List Nat))
    (ecdsaVerify : Nat → Nat → List Nat → Nat → Nat → Bool)
    (quote : QuoteV4) : Option SigCheckResult :=
  match quote.header with
  | none => none
  | some _ =>
    match quote.signedData with
    | none => none
    | some signedData =>
      if signedData.signature.length == 64 && signedData.ecdsaAttestationKey.length == 64 then
        some (validateECDSASignature headerToAbiBytes tdQuoteBodyToAbiBytes ecdsaVerify quote
          signedData.signature signedData.ecdsaAttestationKey)
      else none

/-- Observable outcome of extractFromQuoteV4: the signature-check outcome
(none when the check was not attempted) and the extracted TD report (none
models the log.Fatal exit on a missing TD quote body). -/
structure RunOutcome where
  sigCheck : Option SigCheckResult
  report : Option TDReport
deriving DecidableEq

/-- Shallow embedding of extractFromQuoteV4 (main.go lines 92 to 120): run
the structure validation (including the non-fatal signature check), then die
if the body is missing, else build and report the TD report. -/
def extractFromQuoteV4 (headerToAbiBytes : QuoteHeader → Option (List Nat))
    (tdQuoteBodyToAbiBytes : TDQuoteBody → Option (List Nat))
    (ecdsaVerify : Nat → Nat → List Nat → Nat → Nat → Bool)
    (quote : QuoteV4) : RunOutcome :=
  let sigCheck := validateQuoteStructure headerToAbiBytes tdQuoteBodyToAbiBytes ecdsaVerify quote
  match quote.tdQuoteBody with
  | none => { sigCheck := sigCheck, report := none }
  | some tdQuoteBody => { sigCheck := sigCheck, report := some (tdReportFromBody tdQuoteBody) }

/-! ## Quote decoding dispatch (main.go lines 70 to 90) -/

/-- Result of abi.QuoteToProto: on success the library returns an any-typed
quote that main.go type-asserts to *tdx.QuoteV4; a successful parse of a
different quote version fails the assertion. -/
inductive AbiParsed where
  | v4 (q : QuoteV4)
  | otherVersion
deriving DecidableEq

/-- Decoded form chosen by main: protobuf QuoteV4, ABI-converted QuoteV4, or
the manual raw path (which keeps the input bytes and cannot fail here). -/
inductive DecodeResult where
  | structuredProto (q : QuoteV4)
  | abiConverted (q : QuoteV4)
  | rawManual (data : List Nat)
deriving DecidableEq

/-- Shallow embedding of the decode dispatch in main: try proto.Unmarshal
first, then abi.QuoteToProto with a QuoteV4 type assertion, and otherwise
fall through to manual raw parsing. The external parsers are parameters. -/
def decodeQuote (protoParse : List Nat → Option QuoteV4)
    (abiParse : List Nat → Option AbiParsed) (quoteData : List Nat) : DecodeResult :=
  match protoParse quoteData with
  | some quote => DecodeResult.structuredProto quote
  | none =>
    match abiParse quoteData with
    | some (AbiParsed.v4 q4) => DecodeResult.abiConverted q4
    | _ => DecodeResult.rawManual quoteData

/-! ## Boot measurement replay (src/unnamed/part_000, python heredoc) -/

/-- Model of the Python expression data.rstrip applied with the newline
byte: remove every trailing 10 byte. -/
def rstripNewlines (bs : List Nat) : List Nat :=
  (bs.reverse.dropWhile (fun b => b == 10)).reverse

/-- The extend primitive of the replay script: SHA-384 of the accumulator
followed by the measurement. -/
def extend (rtmr measurement : List Nat) : List Nat := sha384 (rtmr ++ measurement)

/-- Shallow embedding of the replay script body: strip trailing newlines from
the command line only, start from 48 zero bytes, and extend with the SHA-384
digests of kernel, initrd and command line in that order. -/
def replayRTMR1 (kernel initrd cmdlineRaw : List Nat) : List Nat :=
  let cmdline := rstripNewlines cmdlineRaw
  let rtmr := List.replicate 48 0
  let rtmr := extend rtmr (sha384 kernel)
  let rtmr := extend rtmr (sha384 initrd)
  let rtmr := extend rtmr (sha384 cmdline)
  rtmr

/-! ## Helper lemmas -/

/-- Sanity check of the struct layout table: the fields are contiguous from
offset 0 and their declared widths sum to the 1048-byte struct size. -/
theorem tdReportFieldLayout_contiguous :
    (tdReportFieldLayout.map Prod.snd).sum = tdReportStructSize ∧
    tdReportFieldLayout.headD (0, 0) = (0, 4) ∧
    ((tdReportFieldLayout.zip tdReportFieldLayout.tail).all
      (fun p => p.1.1 + p.1.2 == p.2.1)) = true := by decide

/-- A field read whose byte interval fits in the buffer returns its bytes. -/
theorem castFieldRead_in_bounds (quoteData : List Nat) (off size : Nat)
    (h : 48 + off + size ≤ quoteData.length) :
    castFieldRead quoteData off size = some ((quoteData.drop (48 + off)).take size) := by
  unfold castFieldRead
  rw [if_pos h]

/-- Taking size bytes after a drop yields size bytes when the interval fits. -/
theorem length_drop_take (quoteData : List Nat) (off size : Nat)
    (h : off + size ≤ quoteData.length) :
    ((quoteData.drop off).take size).length = size := by
  simp only [List.length_take, List.length_drop]
  omega

/-! ## C1, C2, C3: raw-mode extraction -/

/-- C1 (code evaluated at the failing input): on a 632-byte quote the length
check passes and extraction returns the cast pointer, yet the dereference of
the rtmr0 field reads quote bytes [856, 904), an interval that lies outside
the 584-byte sub-slice quoteData[48:632] and outside the buffer itself, so
the out-of-bounds branch of the total field read is reached. The claim that
every extracted field lies inside quoteData[48:632] is therefore false of
the code: the TDReport struct is 1048 bytes even though the code documents
and checks the TD Report as 584 bytes. -/
theorem claimC1_castEscapesSubslice :
    extractTDReportFromRawQuote (List.replicate 632 0) = RawExtract.ok (List.replicate 632 0) ∧
    castFieldRead (List.replicate 632 0) rtmr0Offset 48 = none ∧
    ¬ (48 + rtmr0Offset + 48 ≤ 632) := by decide

/-- C2 (counterexample): the claim asserts that extraction on any buffer of
length 632 + k already yields rtmr0 as the 48 bytes at offset 48 + 808; at
k = 0 that byte range does not exist inside the buffer, the field read
returns none, and no 48-byte value is produced. -/
theorem claimC2_counterexample :
    ¬ (castFieldRead (List.replicate 632 0) rtmr0Offset 48 =
        some (((List.replicate 632 0).drop (48 + rtmr0Offset)).take 48) ∧
       (((List.replicate 632 0).drop (48 + rtmr0Offset)).take 48).length = 48) := by decide

/-- C2 (amended): for raw quotes of at least 1096 bytes (48-byte header plus
the 1048-byte struct layout) extraction succeeds and every field of the cast
TD report equals the quote byte range starting at 48 plus the struct offset,
with the declared width; in particular mr_td, mr_config_id and rtmr0..rtmr3
are the named ranges. -/
theorem claimC2_fieldRanges (quoteData : List Nat) (h : 1096 ≤ quoteData.length) :
    extractTDReportFromRawQuote quoteData = RawExtract.ok quoteData ∧
    castFieldRead quoteData 616 48 = some ((quoteData.drop (48 + 616)).take 48) ∧
    castFieldRead quoteData 664 48 = some ((quoteData.drop (48 + 664)).take 48) ∧
    castFieldRead quoteData 808 48 = some ((quoteData.drop (48 + 808)).take 48) ∧
    castFieldRead quoteData 856 48 = some ((quoteData.drop (48 + 856)).take 48) ∧
    castFieldRead quoteData 904 48 = some ((quoteData.drop (48 + 904)).take 48) ∧
    castFieldRead quoteData 952 48 = some ((quoteData.drop (48 + 952)).take 48) ∧
    (∀ off size, (off, size) ∈ tdReportFieldLayout →
      castFieldRead quoteData off size = some ((quoteData.drop (48 + off)).take size) ∧
      ((quoteData.drop (48 + off)).take size).length = size) := by
  have hok : extractTDReportFromRawQuote quoteData = RawExtract.ok quoteData := by
    have h1 : ¬ (quoteData.length < 632) := by omega
    have h2 : ((quoteData.drop 48).take 584).length = 584 := by
      simp only [List.length_take, List.length_drop]
      omega
    unfold extractTDReportFromRawQuote
    rw [if_neg h1, if_neg (fun hne => hne h2)]
  refine ⟨hok, castFieldRead_in_bounds _ _ _ (by omega), castFieldRead_in_bounds _ _ _ (by omega),
    castFieldRead_in_bounds _ _ _ (by omega), castFieldRead_in_bounds _ _ _ (by omega),
    castFieldRead_in_bounds _ _ _ (by omega), castFieldRead_in_bounds _ _ _ (by omega), ?_⟩
  intro off size hmem
  have hbound : off + size ≤ 1048 := by
    have hall : ∀ p ∈ tdReportFieldLayout, p.1 + p.2 ≤ 1048 := by decide
    exact hall (off, size) hmem
  exact ⟨castFieldRead_in_bounds _ _ _ (by omega), length_drop_take _ _ _ (by omega)⟩

/-- C2 witness: a concrete 1096-byte quote buffer satisfies the length bound
and the amended field equations. -/
theorem claimC2_witness :
    1096 ≤ (List.replicate 1096 0).length ∧
    extractTDReportFromRawQuote (List.replicate 1096 0) =
      RawExtract.ok (List.replicate 1096 0) :=
  ⟨by decide, (claimC2_fieldRanges (List.replicate 1096 0) (by decide)).1⟩

/-- C3: raw-mode extraction of any buffer shorter than 632 bytes fails with
the QuoteTooShort error carrying the buffer length; no cast pointer and no
field values are produced. -/
theorem claimC3_quoteTooShort (quoteData : List Nat) (h : quoteData.length < 632) :
    extractTDReportFromRawQuote quoteData = RawExtract.quoteTooShort quoteData.length := by
  unfold extractTDReportFromRawQuote
  rw [if_pos h]

/-- C3 witness: a concrete 10-byte buffer is below the bound and fails with
QuoteTooShort. -/
theorem claimC3_witness :
    (List.replicate 10 0).length < 632 ∧
    extractTDReportFromRawQuote (List.replicate 10 0) = RawExtract.quoteTooShort 10 :=
  ⟨by decide, claimC3_quoteTooShort (List.replicate 10 0) (by decide)⟩

/-! ## C4: boot measurement replay -/

/-- The head of a dropWhile result fails the predicate. -/
theorem head?_dropWhile_false (p : Nat → Bool) :
    ∀ (l : List Nat) (x : Nat), (l.dropWhile p).head? = some x → p x = false := by
  intro l
  induction l with
  | nil =>
    intro x hx
    simp [List.dropWhile] at hx
  | cons a t ih =>
    intro x hx
    by_cases hpa : p a
    · rw [List.dropWhile_cons_of_pos hpa] at hx
      exact ih x hx
    · rw [List.dropWhile_cons_of_neg hpa] at hx
      simp only [List.head?_cons, Option.some.injEq] at hx
      rw [← hx]
      simpa using hpa

/-- The stripped prefix plus the removed run of newline bytes reassembles the
input: rstripNewlines removes a trailing run of 10 bytes and nothing
else. -/
theorem rstripNewlines_trailing (bs : List Nat) :
    bs = rstripNewlines bs ++
      List.replicate (bs.length - (rstripNewlines bs).length) 10 := by
  have hsplit : bs.reverse.takeWhile (fun b => b == 10) ++
      bs.reverse.dropWhile (fun b => b == 10) = bs.reverse :=
    List.takeWhile_append_dropWhile (fun b => b == 10) bs.reverse
  have hrep : bs.reverse.takeWhile (fun b => b == 10) =
      List.replicate (bs.reverse.takeWhile (fun b => b == 10)).length 10 := by
    apply List.eq_replicate_of_mem
    intro b hb
    have hpb := List.mem_takeWhile_imp hb
    simpa using hpb
  have hlen : (bs.reverse.takeWhile (fun b => b == 10)).length +
      (bs.reverse.dropWhile (fun b => b == 10)).length = bs.length := by
    have hcongr := congrArg List.length hsplit
    simp only [List.length_append, List.length_reverse] at hcongr
    exact hcongr
  have hlenr : (rstripNewlines bs).length =
      (bs.reverse.dropWhile (fun b => b == 10)).length := by
    simp [rstripNewlines]
  have key : bs = (bs.reverse.dropWhile (fun b => b == 10)).reverse ++
      List.replicate (bs.reverse.takeWhile (fun b => b == 10)).length 10 := by
    conv_lhs => rw [← List.reverse_reverse bs, ← hsplit]
    rw [List.reverse_append]
    congr 1
    rw [hrep]
    simp
  have htw : (bs.reverse.takeWhile (fun b => b == 10)).length =
      bs.length - (rstripNewlines bs).length := by omega
  calc bs = (bs.reverse.dropWhile (fun b => b == 10)).reverse ++
        List.replicate (bs.reverse.takeWhile (fun b => b == 10)).length 10 := key
    _ = rstripNewlines bs ++
        List.replicate (bs.length - (rstripNewlines bs).length) 10 := by
      rw [htw]
      rfl

/-- The stripped command line does not end in a newline byte. -/
theorem rstripNewlines_noTrailing (bs : List Nat) :
    (rstripNewlines bs).getLast? ≠ some 10 := by
  intro hlast
  have hhead : (bs.reverse.dropWhile (fun b => b == 10)).head? = some 10 := by
    have h2 : ((bs.reverse.dropWhile (fun b => b == 10)).reverse).getLast? = some 10 := hlast
    rwa [List.getLast?_reverse] at h2
  have hfalse := head?_dropWhile_false (fun b => b == 10) _ _ hhead
  simp at hfalse

/-- C4: the replay output is the three-step extend chain over the SHA-384
digests of kernel, initrd and stripped command line, in that order, starting
from 48 zero bytes; kernel and initrd enter unmodified, and the command-line
preprocessing removes exactly the trailing run of newline bytes (the input
is the stripped prefix plus a run of 10 bytes, and the stripped prefix
does not end in 10). -/
theorem claimC4_replayChain (kernel initrd cmdline : List Nat) :
    replayRTMR1 kernel initrd cmdline =
      extend (extend (extend (List.replicate 48 0) (sha384 kernel)) (sha384 initrd))
        (sha384 (rstripNewlines cmdline)) ∧
    cmdline = rstripNewlines cmdline ++
      List.replicate (cmdline.length - (rstripNewlines cmdline).length) 10 ∧
    (rstripNewlines cmdline).getLast? ≠ some 10 :=
  ⟨rfl, rstripNewlines_trailing cmdline, rstripNewlines_noTrailing cmdline⟩

/-! ## C5: signature verifier steps -/

/-- C5: with a 64-byte signature and a 64-byte public key the verifier takes
r and s as the big-endian integers of the first and last 32 signature bytes
and x and y as those of the public key halves; a key off the P-256 curve
yields PublicKeyNotOnCurve for every possible ECDSA routine (so the ECDSA
check is never consulted); a key on the curve with both ABI encodings
succeeding yields exactly the ECDSA verdict over the SHA-256 hash of the
ABI header bytes concatenated with the ABI TD-quote-body bytes. -/
theorem claimC5_signatureSteps
    (headerToAbiBytes : QuoteHeader → Option (List Nat))
    (tdQuoteBodyToAbiBytes : TDQuoteBody → Option (List Nat))
    (ecdsaVerify : Nat → Nat → List Nat → Nat → Nat → Bool)
    (quote : QuoteV4) (signature publicKey : List Nat)
    (hs : signature.length = 64) (hp : publicKey.length = 64) :
    (isOnCurveP256 (beBytesToNat (publicKey.take 32)) (beBytesToNat (publicKey.drop 32)) = false →
      validateECDSASignature headerToAbiBytes tdQuoteBodyToAbiBytes ecdsaVerify quote
        signature publicKey = SigCheckResult.publicKeyNotOnCurve) ∧
    (∀ header tdQuoteBody headerBytes tdQuoteBodyBytes,
      isOnCurveP256 (beBytesToNat (publicKey.take 32)) (beBytesToNat (publicKey.drop 32)) = true →
      quote.header = some header → quote.tdQuoteBody = some tdQuoteBody →
      headerToAbiBytes header = some headerBytes →
      tdQuoteBodyToAbiBytes tdQuoteBody = some tdQuoteBodyBytes →
      validateECDSASignature headerToAbiBytes tdQuoteBodyToAbiBytes ecdsaVerify quote
        signature publicKey =
        SigCheckResult.verified
          (ecdsaVerify (beBytesToNat (publicKey.take 32)) (beBytesToNat (publicKey.drop 32))
            (sha256 (headerBytes ++ tdQuoteBodyBytes))
            (beBytesToNat (signature.take 32)) (beBytesToNat (signature.drop 32)))) := by
  constructor
  · intro hcurve
    simp [validateECDSASignature, hs, hp, hcurve]
  · intro header tdQuoteBody headerBytes tdQuoteBodyBytes hcurve hh hb he1 he2
    simp [validateECDSASignature, createSignedPayload, hs, hp, hcurve, hh, hb, he1, he2]

/-- C5 witness: the all-zero 64-byte key gives coordinates (0, 0), which are
not on P-256, and the verifier reports PublicKeyNotOnCurve for an ECDSA
routine that would accept anything. -/
theorem claimC5_witness :
    validateECDSASignature (fun _ => some []) (fun _ => some [])
      (fun _ _ _ _ _ => true) {} (List.replicate 64 0) (List.replicate 64 0) =
      SigCheckResult.publicKeyNotOnCurve :=
  (claimC5_signatureSteps (fun _ => some []) (fun _ => some []) (fun _ _ _ _ _ => true)
    {} (List.replicate 64 0) (List.replicate 64 0) (by decide) (by decide)).1 (by decide)

/-! ## C6: decode priority -/

/-- C6: the decode dispatch tries the protobuf parse first and its success
forecloses the other strategies, for every behavior of the ABI parser; when
both the protobuf parse and the ABI conversion fail the dispatch falls
through to manual raw interpretation of the input bytes, an outcome that
carries no decode-time error. -/
theorem claimC6_decodePriority (protoParse : List Nat → Option QuoteV4)
    (abiParse : List Nat → Option AbiParsed) (quoteData : List Nat) :
    (∀ quote, protoParse quoteData = some quote →
      decodeQuote protoParse abiParse quoteData = DecodeResult.structuredProto quote) ∧
    (protoParse quoteData = none → abiParse quoteData = none →
      decodeQuote protoParse abiParse quoteData = DecodeResult.rawManual quoteData) := by
  constructor
  · intro quote hq
    simp [decodeQuote, hq]
  · intro h1 h2
    simp [decodeQuote, h1, h2]

/-- C6 witness: with a protobuf parser that succeeds the result is the
structured quote even though the ABI parser rejects; with both parsers
failing the result is the raw fallback on the same bytes. -/
theorem claimC6_witness :
    decodeQuote (fun _ => some {}) (fun _ => none) [1, 2, 3] =
      DecodeResult.structuredProto {} ∧
    decodeQuote (fun _ => none) (fun _ => none) [1, 2, 3] =
      DecodeResult.rawManual [1, 2, 3] :=
  ⟨(claimC6_decodePriority (fun _ => some {}) (fun _ => none) [1, 2, 3]).1 {} rfl,
   (claimC6_decodePriority (fun _ => none) (fun _ => none) [1, 2, 3]).2 rfl rfl⟩

/-! ## C7: verification failures are not fatal -/

/-- C7: for every structurally decoded quote whose TD quote body is present,
extractFromQuoteV4 extracts and reports the measurement fields whatever the
ABI encoders and the ECDSA routine do; since those parameters are arbitrary,
a failed verification, a key off the curve or a failed payload
reconstruction can only change the recorded signature-check outcome, never
suppress the report. -/
theorem claimC7_nonFatalVerification
    (headerToAbiBytes : QuoteHeader → Option (List Nat))
    (tdQuoteBodyToAbiBytes : TDQuoteBody → Option (List Nat))
    (ecdsaVerify : Nat → Nat → List Nat → Nat → Nat → Bool)
    (quote : QuoteV4) (tdQuoteBody : TDQuoteBody)
    (hbody : quote.tdQuoteBody = some tdQuoteBody) :
    (extractFromQuoteV4 headerToAbiBytes tdQuoteBodyToAbiBytes ecdsaVerify quote).report =
      some (tdReportFromBody tdQuoteBody) := by
  simp [extractFromQuoteV4, hbody]

/-- C7 witness: a quote with a body, a well-formed 64-byte signature block
and an ECDSA routine that always rejects still gets its TD report
extracted. -/
theorem claimC7_witness :
    (extractFromQuoteV4 (fun _ => some []) (fun _ => some []) (fun _ _ _ _ _ => false)
      { header := some {}, tdQuoteBody := some {},
        signedData := some { signature := List.replicate 64 0,
                             ecdsaAttestationKey := List.replicate 64 0 } }).report =
      some (tdReportFromBody {}) :=
  claimC7_nonFatalVerification (fun _ => some []) (fun _ => some []) (fun _ _ _ _ _ => false)
    _ _ rfl

/-! ## C8: uninitialized marking -/

/-- The hex encoding of a byte list has two characters per byte. -/
theorem hexLower_length (bs : List Nat) : (hexLower bs).length = 2 * bs.length := by
  have hflat : (bs.flatMap byteToHexChars).length = 2 * bs.length := by
    induction bs with
    | nil => simp
    | cons b t ih =>
      simp only [List.flatMap_cons, List.length_append, ih, byteToHexChars,
        List.length_cons, List.length_nil, List.length_map]
      omega
  exact hflat

/-- C8: a 48-byte register renders as the uninitialized marker exactly when
every byte is zero, and renders as its lowercase hex encoding whenever some
byte is nonzero. -/
theorem claimC8_uninitMarking (rtmr : List Nat) (h48 : rtmr.length = 48) :
    ((renderRegister rtmr = uninitializedMarker) ↔ (∀ b ∈ rtmr, b = 0)) ∧
    ((¬ ∀ b ∈ rtmr, b = 0) → renderRegister rtmr = hexLower rtmr) := by
  by_cases hz : ∀ b ∈ rtmr, b = 0
  · have hall : rtmr.all (fun b => b == 0) = true := by
      rw [List.all_eq_true]
      intro b hb
      simpa using hz b hb
    refine ⟨⟨fun _ => hz, fun _ => ?_⟩, fun hc => absurd hz hc⟩
    simp [renderRegister, hall]
  · have hall : rtmr.all (fun b => b == 0) = false := by
      rcases Bool.eq_false_or_eq_true (rtmr.all (fun b => b == 0)) with h | h
      · exfalso
        apply hz
        intro b hb
        have hb0 := List.all_eq_true.mp h b hb
        simpa using hb0
      · exact h
    have hrender : renderRegister rtmr = hexLower rtmr := by
      simp [renderRegister, hall]
    refine ⟨⟨fun hmark => ?_, fun h2 => absurd h2 hz⟩, fun _ => hrender⟩
    exfalso
    rw [hrender] at hmark
    have hlen := congrArg String.length hmark
    rw [hexLower_length, h48] at hlen
    have hm : uninitializedMarker.length = 27 := by decide
    omega

/-- C8 witness: the register that is zero everywhere but in its last byte is
48 bytes, is not marked uninitialized, and renders as hex. -/
theorem claimC8_witness :
    (List.replicate 47 0 ++ [1]).length = 48 ∧
    (((renderRegister (List.replicate 47 0 ++ [1]) = uninitializedMarker) ↔
       (∀ b ∈ List.replicate 47 0 ++ [1], b = 0)) ∧
     ((¬ ∀ b ∈ List.replicate 47 0 ++ [1], b = 0) →
       renderRegister (List.replicate 47 0 ++ [1]) =
         hexLower (List.replicate 47 0 ++ [1]))) :=
  ⟨by decide, claimC8_uninitMarking (List.replicate 47 0 ++ [1]) (by decide)⟩

/-! ## C9, C10: structured-path field copying -/

/-- C9: with at least four rtmr list entries the four RTMR fields come from
the first four entries in order (through the Go copy semantics into a
48-byte zero destination); with fewer than four entries every RTMR field
keeps its default all-zero value and no entry is copied. -/
theorem claimC9_rtmrSelection (tdQuoteBody : TDQuoteBody) :
    (4 ≤ tdQuoteBody.rtmrs.length →
      (tdReportFromBody tdQuoteBody).rtmr0 =
        goCopy (List.replicate 48 0) (tdQuoteBody.rtmrs.getD 0 []) ∧
      (tdReportFromBody tdQuoteBody).rtmr1 =
        goCopy (List.replicate 48 0) (tdQuoteBody.rtmrs.getD 1 []) ∧
      (tdReportFromBody tdQuoteBody).rtmr2 =
        goCopy (List.replicate 48 0) (tdQuoteBody.rtmrs.getD 2 []) ∧
      (tdReportFromBody tdQuoteBody).rtmr3 =
        goCopy (List.replicate 48 0) (tdQuoteBody.rtmrs.getD 3 [])) ∧
    (tdQuoteBody.rtmrs.length < 4 →
      (tdReportFromBody tdQuoteBody).rtmr0 = List.replicate 48 0 ∧
      (tdReportFromBody tdQuoteBody).rtmr1 = List.replicate 48 0 ∧
      (tdReportFromBody tdQuoteBody).rtmr2 = List.replicate 48 0 ∧
      (tdReportFromBody tdQuoteBody).rtmr3 = List.replicate 48 0) := by
  constructor
  · intro h4
    simp [tdReportFromBody, h4]
  · intro hlt
    have h4 : ¬ 4 ≤ tdQuoteBody.rtmrs.length := by omega
    simp [tdReportFromBody, h4]

/-- C9 witness: a body with four one-byte rtmr entries copies them in order,
and a body with one entry leaves all RTMR fields zero. -/
theorem claimC9_witness :
    (tdReportFromBody { rtmrs := [[1], [2], [3], [4]] }).rtmr0 =
      goCopy (List.replicate 48 0) [1] ∧
    (tdReportFromBody { rtmrs := [[1], [2], [3], [4]] }).rtmr3 =
      goCopy (List.replicate 48 0) [4] ∧
    (tdReportFromBody { rtmrs := [[9]] }).rtmr0 = List.replicate 48 0 ∧
    (tdReportFromBody { rtmrs := [[9]] }).rtmr3 = List.replicate 48 0 :=
  ⟨((claimC9_rtmrSelection { rtmrs := [[1], [2], [3], [4]] }).1 (by decide)).1,
   ((claimC9_rtmrSelection { rtmrs := [[1], [2], [3], [4]] }).1 (by decide)).2.2.2,
   ((claimC9_rtmrSelection { rtmrs := [[9]] }).2 (by decide)).1,
   ((claimC9_rtmrSelection { rtmrs := [[9]] }).2 (by decide)).2.2.2⟩

/-- The Go copy into a fresh 48-byte destination preserves the destination
length. -/
theorem goCopy_length (dst src : List Nat) : (goCopy dst src).length = dst.length := by
  unfold goCopy
  simp only [List.length_append, List.length_take, List.length_drop]
  omega

/-- Every copied measurement field of the structured path goes through
goCopy into a zeroed 48-byte destination. -/
theorem tdReportFromBody_mrFields (tdQuoteBody : TDQuoteBody) :
    (tdReportFromBody tdQuoteBody).mrTd = goCopy (List.replicate 48 0) tdQuoteBody.mrTd ∧
    (tdReportFromBody tdQuoteBody).mrConfigId =
      goCopy (List.replicate 48 0) tdQuoteBody.mrConfigId ∧
    (tdReportFromBody tdQuoteBody).mrOwner = goCopy (List.replicate 48 0) tdQuoteBody.mrOwner ∧
    (tdReportFromBody tdQuoteBody).mrOwnerConfig =
      goCopy (List.replicate 48 0) tdQuoteBody.mrOwnerConfig := by
  by_cases h : 4 ≤ tdQuoteBody.rtmrs.length <;> simp [tdReportFromBody, h]

/-- C10: copying a short source into the zeroed 48-byte destination fills
only the leading bytes and leaves the rest zero; a long source is truncated
to its first 48 bytes; the result is always exactly 48 bytes, and every
copied measurement field of the structured extraction has length 48 (there
is no error path for a length mismatch: tdReportFromBody is total). -/
theorem claimC10_copyPadTruncate (src : List Nat) (tdQuoteBody : TDQuoteBody) :
    (goCopy (List.replicate 48 0) src).length = 48 ∧
    (src.length ≤ 48 →
      goCopy (List.replicate 48 0) src = src ++ List.replicate (48 - src.length) 0) ∧
    (48 ≤ src.length → goCopy (List.replicate 48 0) src = src.take 48) ∧
    ((tdReportFromBody tdQuoteBody).mrTd.length = 48 ∧
     (tdReportFromBody tdQuoteBody).mrConfigId.length = 48 ∧
     (tdReportFromBody tdQuoteBody).mrOwner.length = 48 ∧
     (tdReportFromBody tdQuoteBody).mrOwnerConfig.length = 48 ∧
     (tdReportFromBody tdQuoteBody).rtmr0.length = 48 ∧
     (tdReportFromBody tdQuoteBody).rtmr1.length = 48 ∧
     (tdReportFromBody tdQuoteBody).rtmr2.length = 48 ∧
     (tdReportFromBody tdQuoteBody).rtmr3.length = 48) := by
  refine ⟨?_, ?_, ?_, ?_⟩
  · simpa using goCopy_length (List.replicate 48 0) src
  · intro hle
    unfold goCopy
    have hmin : min (List.replicate (48:Nat) (0:Nat)).length src.length = src.length := by
      simp only [List.length_replicate]
      omega
    rw [hmin, List.take_length, List.drop_replicate]
  · intro hge
    unfold goCopy
    have hmin : min (List.replicate (48:Nat) (0:Nat)).length src.length = 48 := by
      simp only [List.length_replicate]
      omega
    rw [hmin, List.drop_replicate]
    simp
  · by_cases h : 4 ≤ tdQuoteBody.rtmrs.length <;>
      simp [tdReportFromBody, h, goCopy_length]

/-- C10 witness: a 3-byte source pads to 48 bytes, a 50-byte source
truncates to 48, and the extracted fields of a concrete body are 48
bytes. -/
theorem claimC10_witness :
    (goCopy (List.replicate 48 0) [1, 2, 3]).length = 48 ∧
    goCopy (List.replicate 48 0) [1, 2, 3] =
      [1, 2, 3] ++ List.replicate (48 - ([1, 2, 3] : List Nat).length) 0 ∧
    goCopy (List.replicate 48 0) (List.replicate 50 7) = (List.replicate 50 7).take 48 ∧
    (tdReportFromBody { mrTd := [5, 6] }).mrTd.length = 48 :=
  ⟨(claimC10_copyPadTruncate [1, 2, 3] { mrTd := [5, 6] }).1,
   (claimC10_copyPadTruncate [1, 2, 3] { mrTd := [5, 6] }).2.1 (by decide),
   (claimC10_copyPadTruncate (List.replicate 50 7) { mrTd := [5, 6] }).2.2.1 (by decide),
   (claimC10_copyPadTruncate [1, 2, 3] { mrTd := [5, 6] }).2.2.2.1⟩

end TdxRtmr
